import Mathlib

/-!
Verification of the MCQ practice flow of the ddi quiz application.

The embedding below translates the session logic of
`src/components/MCQPractice.tsx` and the admin cascade delete of the
admin console into Lean definitions.  JS numbers holding option or
answer indices are modelled as `Int`; document-id sets as
`Finset String`; the random comparator shuffle of line 128 is modelled
as an arbitrary function parameter `shuffle` together with the
hypothesis that it permutes its input (which is what
`Array.prototype.sort` guarantees for the element multiset); remote
calls are modelled by an explicit success flag plus a log of attempted
operations.
-/

namespace DDI


/-- A multiple-choice question document from the `mcqs` collection
(fields as used by `MCQPractice.tsx`; `correctAnswer` is the 1-based
index stored in the database). -/
structure MCQ where
  id : String
  chapterId : String
  topicId : Option String
  question : String
  options : List String
  correctAnswer : Int
  explanation : Option String
deriving DecidableEq, Repr

/-- The chapter passed into the practice component (fields used by the
handlers: `id` and `subjectId`). -/
structure Chapter where
  id : String
  subjectId : String
  title : String
deriving DecidableEq, Repr

/-- The `UserAnswerResult` interface of `MCQPractice.tsx` (lines 19-27):
`correctAnswer` is the 1-based index from the database, `selectedOption`
the 0-based index from the UI. -/
structure UserAnswerResult where
  questionId : String
  question : String
  options : List String
  correctAnswer : Int
  selectedOption : Int
  isCorrect : Bool
  explanation : Option String
deriving DecidableEq, Repr

/-- The filter mode state of the practice component
(`'all' | 'new' | 'bookmarked'`). -/
inductive FilterMode where
  | all
  | new
  | bookmarked
deriving DecidableEq, Repr

/-- The practice-session part of the component state: the filtered and
sliced question list plus index, selection, checked flag, result log and
completion flag. -/
structure SessionState where
  questions : List MCQ
  currentQuestionIndex : Nat
  selectedOption : Option Int
  isAnswerChecked : Bool
  sessionResults : List UserAnswerResult
  isSessionComplete : Bool
deriving DecidableEq, Repr

/-- Whether the topic filter branch of `setupSession` runs
(line 114: `if (topicId && topicId !== 'all')`, with JS truthiness of
the string). -/
def topicFilterApplies : Option String → Bool
  | some tid => tid != "" && tid != "all"
  | none => false

/-- Whether the bookmark filter branch of `setupSession` runs
(line 119: `if (isQuickRevision || mode === 'bookmarked')`). -/
def bookmarkFilterApplies (isQuickRevision : Bool) (mode : FilterMode) : Bool :=
  isQuickRevision || mode == FilterMode.bookmarked

/-- Steps 1 and 2 of `setupSession` (lines 111-125): filter the source
questions by topic, then by bookmark membership when in a
bookmarked-only context (the commented-out `'new'` branch filters
nothing). -/
def filteredQuestions (sourceQuestions : List MCQ) (bookmarks : Finset String)
    (mode : FilterMode) (topicId : Option String) (isQuickRevision : Bool) : List MCQ :=
  let f1 := if topicFilterApplies topicId then
      sourceQuestions.filter (fun q => q.topicId == topicId)
    else sourceQuestions
  if bookmarkFilterApplies isQuickRevision mode then
    f1.filter (fun q => decide (q.id ∈ bookmarks))
  else f1

/-- `setupSession` (lines 104-140): filter, shuffle, slice to `limit`,
then reset index, selection, checked flag and result log, and mark the
session complete exactly when the resulting list is empty.  The random
comparator sort of line 128 is the `shuffle` parameter. -/
def setupSession (shuffle : List MCQ → List MCQ) (sourceQuestions : List MCQ)
    (bookmarks : Finset String) (mode : FilterMode) (topicId : Option String)
    (limit : Nat) (isQuickRevision : Bool) : SessionState :=
  let filtered := filteredQuestions sourceQuestions bookmarks mode topicId isQuickRevision
  let shuffled := shuffle filtered
  let finalQuestions := shuffled.take limit
  { questions := finalQuestions
    currentQuestionIndex := 0
    selectedOption := none
    isAnswerChecked := false
    sessionResults := []
    isSessionComplete := finalQuestions.length == 0 }

/-- The clamp applied to the question-limit input by the filter modal
(line 273: `Math.min(100, Math.max(1, parseInt(e.target.value) || 1))`). -/
def clampLimit (n : Nat) : Nat := min 100 (max 1 n)

/-- Sample question used for concrete witnesses. -/
def sampleQ1 : MCQ :=
  { id := "q1", chapterId := "c1", topicId := some "t1", question := "sample one",
    options := ["a", "b", "c", "d"], correctAnswer := 2, explanation := none }

/-- Second sample question used for concrete witnesses. -/
def sampleQ2 : MCQ :=
  { id := "q2", chapterId := "c1", topicId := some "t1", question := "sample two",
    options := ["a", "b", "c", "d"], correctAnswer := 1, explanation := some "because" }

/-- The per-question progress record upserted on each answer check
(lines 180-187; `attemptCount` is the simplified constant 1). -/
structure ProgressWrite where
  questionId : String
  isCorrect : Bool
  chapterId : String
  subjectId : String
  attemptCount : Nat
deriving DecidableEq, Repr

/-- `handleCheckAnswer` (lines 158-191): a guarded no-op when no option
is selected or the answer is already checked; otherwise reads the
current question, compares the 0-based selection with
`correctAnswer - 1`, sets the checked flag, appends a
`UserAnswerResult`, and fires one progress upsert.  Returns `none` for
the JS `TypeError` raised when the current index is out of range (the
property read on `undefined` happens before any state update), and
otherwise the updated state together with the attempted progress write
(its remote failure is only logged and changes no state). -/
def handleCheckAnswer (subjectId : String) (s : SessionState) :
    Option (SessionState × Option ProgressWrite) :=
  if s.selectedOption = none ∨ s.isAnswerChecked = true then some (s, none)
  else
    match s.selectedOption, s.questions.get? s.currentQuestionIndex with
    | some sel, some currentQ =>
      let isCorrect : Bool := sel == currentQ.correctAnswer - 1
      let result : UserAnswerResult :=
        { questionId := currentQ.id
          question := currentQ.question
          options := currentQ.options
          correctAnswer := currentQ.correctAnswer
          selectedOption := sel
          isCorrect := isCorrect
          explanation := currentQ.explanation }
      some ({ s with isAnswerChecked := true, sessionResults := s.sessionResults ++ [result] },
        some { questionId := currentQ.id, isCorrect := isCorrect, chapterId := currentQ.chapterId,
               subjectId := subjectId, attemptCount := 1 })
    | _, _ => none

/-- `totalCorrect` (line 236): number of correct entries in the result
log. -/
def totalCorrect (sessionResults : List UserAnswerResult) : Nat :=
  (sessionResults.filter (fun r => r.isCorrect)).length

/-- The `toFixed(1)` rendering used by the completion screen, modelled
over exact rationals: round to the nearest tenth and print with one
digit after the point (the concrete scores appearing here are
nonnegative and far below the float-noise threshold, so the rational
model agrees with the JS float computation). -/
def toFixed1 (x : ℚ) : String :=
  let n : Int := round (x * 10)
  toString (n / 10) ++ "." ++ toString (n % 10)

/-- The score shown by `SessionCompleteScreen` (line 340):
`questions.length > 0 ? ((totalCorrect / questions.length) * 100).toFixed(1) : 0`,
where rendering the number 0 in JSX prints the string "0". -/
def scoreDisplay (s : SessionState) : String :=
  if s.questions.length > 0 then
    toFixed1 ((totalCorrect s.sessionResults : ℚ) / (s.questions.length : ℚ) * 100)
  else "0"

/-- `handleResetSession` (lines 203-206): rebuild the session with
`setupSession` from the cached `allQuestions` and the last-applied
filter state, then set the completion flag to false.  Because React
batches the queued updates in order, this final
`setIsSessionComplete(false)` overrides the flag that `setupSession`
computed from the rebuilt list. -/
def handleResetSession (shuffle : List MCQ → List MCQ) (allQuestions : List MCQ)
    (userBookmarks : Finset String) (tempFilterMode : FilterMode)
    (tempTopicId : Option String) (tempLimit : Nat) (isQuickRevision : Bool) : SessionState :=
  let s := setupSession shuffle allQuestions userBookmarks tempFilterMode tempTopicId
    tempLimit isQuickRevision
  { s with isSessionComplete := false }

/-- Kind of transient banner message set via `setMsg`. -/
inductive MsgType where
  | success
  | error
deriving DecidableEq, Repr

/-- A transient banner message. -/
structure Msg where
  type : MsgType
  text : String
deriving DecidableEq, Repr

/-- A remote bookmark operation attempted against
`users/{uid}/bookmarks/{questionId}` (the document key is the question
id; the created payload denormalizes chapter and subject ids). -/
inductive BookmarkOp where
  | createDoc (questionId chapterId subjectId : String)
  | deleteDoc (questionId : String)
deriving DecidableEq, Repr

/-- Outcome of one `handleToggleBookmark` invocation: the resulting
local bookmark set, the attempted remote operations in order, the
banner message set, and whether the 2000 ms auto-dismiss timeout was
scheduled. -/
structure ToggleResult where
  userBookmarks : Finset String
  remoteOps : List BookmarkOp
  msg : Option Msg
  msgTimeoutScheduled : Bool

/-- `handleToggleBookmark` (lines 208-233): when currently bookmarked,
delete the backing record and, only if the remote delete succeeds,
remove the id from the local set; when not bookmarked, create the
record and, only on success, add the id.  On success a success banner
is shown; a thrown remote error is caught, the local set is left as it
was, and an error banner is shown.  Either way the banner is cleared by
a scheduled timeout and nothing is retried.  `remoteOk` models whether
the awaited remote call succeeds. -/
def handleToggleBookmark (remoteOk : Bool) (chapter : Chapter)
    (userBookmarks : Finset String) (questionId : String) (isBookmarked : Bool) :
    ToggleResult :=
  if isBookmarked then
    if remoteOk then
      { userBookmarks := userBookmarks.erase questionId
        remoteOps := [BookmarkOp.deleteDoc questionId]
        msg := some { type := MsgType.success, text := "Bookmark Removed" }
        msgTimeoutScheduled := true }
    else
      { userBookmarks := userBookmarks
        remoteOps := [BookmarkOp.deleteDoc questionId]
        msg := some { type := MsgType.error, text := "Failed to update bookmark." }
        msgTimeoutScheduled := true }
  else
    if remoteOk then
      { userBookmarks := insert questionId userBookmarks
        remoteOps := [BookmarkOp.createDoc questionId chapter.id chapter.subjectId]
        msg := some { type := MsgType.success, text := "Question Bookmarked!" }
        msgTimeoutScheduled := true }
    else
      { userBookmarks := userBookmarks
        remoteOps := [BookmarkOp.createDoc questionId chapter.id chapter.subjectId]
        msg := some { type := MsgType.error, text := "Failed to update bookmark." }
        msgTimeoutScheduled := true }

/-- A topic document (fields used by the cascade delete: its id and the
chapter it references). -/
structure TopicRec where
  id : String
  chapterId : String
deriving DecidableEq, Repr

/-- An MCQ document as seen by the cascade delete. -/
structure McqRec where
  id : String
  chapterId : String
deriving DecidableEq, Repr

/-- A formula document as seen by the cascade delete. -/
structure FormulaRec where
  id : String
  chapterId : String
deriving DecidableEq, Repr

/-- A chapter document as seen by the cascade delete. -/
structure ChapterRec where
  id : String
deriving DecidableEq, Repr

/-- The four document collections touched by the admin cascade
delete. -/
structure AdminStore where
  chapters : List ChapterRec
  topics : List TopicRec
  mcqs : List McqRec
  formulas : List FormulaRec
deriving DecidableEq, Repr

/-- A document reference placed in the write batch. -/
inductive DocRef where
  | chapterRef (id : String)
  | topicRef (id : String)
  | mcqRef (id : String)
  | formulaRef (id : String)
deriving DecidableEq, Repr

/-- The batch built by `handleDeleteChapter` (admin console,
`src/unnamed/part_001` lines 151-168): the chapter document followed by
every topic, MCQ and formula document whose `chapterId` equals the
deleted chapter. -/
def deleteChapterBatch (store : AdminStore) (chapterId : String) : List DocRef :=
  [DocRef.chapterRef chapterId]
    ++ (store.topics.filter (fun t => t.chapterId == chapterId)).map
        (fun t => DocRef.topicRef t.id)
    ++ (store.mcqs.filter (fun m => m.chapterId == chapterId)).map
        (fun m => DocRef.mcqRef m.id)
    ++ (store.formulas.filter (fun f => f.chapterId == chapterId)).map
        (fun f => DocRef.formulaRef f.id)

/-- The semantics of `batch.commit()` for a batch of deletes: either
every referenced document is removed in one atomic step, or (on
failure) nothing changes. -/
def commitBatchDeletes (commitOk : Bool) (store : AdminStore) (batch : List DocRef) :
    AdminStore :=
  if commitOk then
    { chapters := store.chapters.filter (fun c => !(decide (DocRef.chapterRef c.id ∈ batch)))
      topics := store.topics.filter (fun t => !(decide (DocRef.topicRef t.id ∈ batch)))
      mcqs := store.mcqs.filter (fun m => !(decide (DocRef.mcqRef m.id ∈ batch)))
      formulas := store.formulas.filter (fun f => !(decide (DocRef.formulaRef f.id ∈ batch))) }
  else store

/-- `handleDeleteChapter` (`src/unnamed/part_001` lines 146-180): build
the cascade batch and commit it once; `commitOk` models whether the
awaited commit succeeds. -/
def handleDeleteChapter (commitOk : Bool) (store : AdminStore) (chapterId : String) :
    AdminStore :=
  commitBatchDeletes commitOk store (deleteChapterBatch store chapterId)

/-- Contents of the array passed as `sourceQuestions` after
`setupSession` returns.  JS array semantics embedded here:
`Array.prototype.filter` allocates a fresh array, while the
`Array.prototype.sort` call on line 128 permutes its receiver in place.
When either filter branch runs, `filtered` is a fresh array and the
source is untouched; when neither applies, `filtered` still aliases
`sourceQuestions`, so the sort permutes the cached source array
itself. -/
def sourceAfterSetupSession (shuffle : List MCQ → List MCQ) (sourceQuestions : List MCQ)
    (mode : FilterMode) (topicId : Option String) (isQuickRevision : Bool) : List MCQ :=
  if topicFilterApplies topicId || bookmarkFilterApplies isQuickRevision mode then
    sourceQuestions
  else
    shuffle sourceQuestions


/-- The filtered question list is a sublist of the source list. -/
theorem filteredQuestions_sublist (sourceQuestions : List MCQ) (bookmarks : Finset String)
    (mode : FilterMode) (topicId : Option String) (isQuickRevision : Bool) :
    (filteredQuestions sourceQuestions bookmarks mode topicId isQuickRevision).Sublist
      sourceQuestions := by
  unfold filteredQuestions
  dsimp only
  split
  · split
    · exact (List.filter_sublist _).trans (List.filter_sublist _)
    · exact List.filter_sublist _
  · split
    · exact List.filter_sublist _
    · exact List.Sublist.refl _

/-- C1: for every non-empty source question list and every limit >= 1,
`setupSession` applied to the modal-clamped limit produces a session
list of length `min (clampLimit limit) |filtered|`, drawn from the
filtered set and free of duplicate questions (assuming the document ids
of the source are distinct and that the random comparator sort permutes
its input). -/
theorem setupSession_length_members_nodup (shuffle : List MCQ → List MCQ)
    (sourceQuestions : List MCQ) (bookmarks : Finset String) (mode : FilterMode)
    (topicId : Option String) (isQuickRevision : Bool) (limit : Nat)
    (hne : sourceQuestions ≠ [])
    (hlim : 1 ≤ limit)
    (hperm : ∀ l, (shuffle l).Perm l)
    (hnodup : (sourceQuestions.map MCQ.id).Nodup) :
    (setupSession shuffle sourceQuestions bookmarks mode topicId (clampLimit limit)
        isQuickRevision).questions.length
      = min (clampLimit limit)
          (filteredQuestions sourceQuestions bookmarks mode topicId isQuickRevision).length ∧
    (∀ q ∈ (setupSession shuffle sourceQuestions bookmarks mode topicId (clampLimit limit)
        isQuickRevision).questions,
      q ∈ filteredQuestions sourceQuestions bookmarks mode topicId isQuickRevision) ∧
    ((setupSession shuffle sourceQuestions bookmarks mode topicId (clampLimit limit)
        isQuickRevision).questions.map MCQ.id).Nodup := by
  have hFsub := filteredQuestions_sublist sourceQuestions bookmarks mode topicId isQuickRevision
  refine ⟨?_, ?_, ?_⟩
  · simp only [setupSession]
    rw [List.length_take,
      (hperm (filteredQuestions sourceQuestions bookmarks mode topicId isQuickRevision)).length_eq]
  · intro q hq
    simp only [setupSession] at hq
    exact (hperm _).subset (List.take_subset _ _ hq)
  · simp only [setupSession]
    have h1 : ((filteredQuestions sourceQuestions bookmarks mode topicId
        isQuickRevision).map MCQ.id).Nodup :=
      List.Nodup.sublist (hFsub.map MCQ.id) hnodup
    have h2 : ((shuffle (filteredQuestions sourceQuestions bookmarks mode topicId
        isQuickRevision)).map MCQ.id).Nodup :=
      ((hperm _).map MCQ.id).nodup_iff.mpr h1
    rw [List.map_take]
    exact List.Nodup.sublist (List.take_sublist _ _) h2

/-- Witness for C1 at a concrete two-question source and limit 5. -/
theorem setupSession_length_members_nodup_witness :
    (setupSession id [sampleQ1, sampleQ2] ∅ FilterMode.all none (clampLimit 5)
        false).questions.length
      = min (clampLimit 5) (filteredQuestions [sampleQ1, sampleQ2] ∅ FilterMode.all none
          false).length ∧
    (∀ q ∈ (setupSession id [sampleQ1, sampleQ2] ∅ FilterMode.all none (clampLimit 5)
        false).questions,
      q ∈ filteredQuestions [sampleQ1, sampleQ2] ∅ FilterMode.all none false) ∧
    ((setupSession id [sampleQ1, sampleQ2] ∅ FilterMode.all none (clampLimit 5)
        false).questions.map MCQ.id).Nodup :=
  setupSession_length_members_nodup id [sampleQ1, sampleQ2] ∅ FilterMode.all none false 5
    (by decide) (by decide) (fun l => List.Perm.refl l) (by decide)

/-- C3: `handleCheckAnswer` is a no-op (state unchanged, no result
appended, no progress write issued) when no option is selected or the
current question is already checked; consequently a second invocation
after any completed invocation changes nothing and issues no write. -/
theorem handleCheckAnswer_duplicate_noop (subjectId : String) (s : SessionState) :
    (s.selectedOption = none ∨ s.isAnswerChecked = true →
      handleCheckAnswer subjectId s = some (s, none)) ∧
    (∀ s₂ w, handleCheckAnswer subjectId s = some (s₂, w) →
      handleCheckAnswer subjectId s₂ = some (s₂, none)) := by
  constructor
  · intro h
    unfold handleCheckAnswer
    rw [if_pos h]
  · intro s₂ w h
    unfold handleCheckAnswer at h
    by_cases hg : s.selectedOption = none ∨ s.isAnswerChecked = true
    · rw [if_pos hg] at h
      simp only [Option.some.injEq, Prod.mk.injEq] at h
      obtain ⟨rfl, rfl⟩ := h
      unfold handleCheckAnswer
      rw [if_pos hg]
    · rw [if_neg hg] at h
      cases hsel : s.selectedOption with
      | none => exact absurd (Or.inl hsel) hg
      | some sel =>
        cases hgetq : s.questions.get? s.currentQuestionIndex with
        | none => rw [hsel, hgetq] at h; exact absurd h (by simp)
        | some q =>
          rw [hsel, hgetq] at h
          simp only [Option.some.injEq, Prod.mk.injEq] at h
          obtain ⟨hA, hw⟩ := h
          unfold handleCheckAnswer
          rw [if_pos (Or.inr (by rw [← hA]))]

/-- Witness for C3 at a concrete already-checked state. -/
theorem handleCheckAnswer_duplicate_noop_witness :
    handleCheckAnswer "s1"
        { questions := [sampleQ1], currentQuestionIndex := 0, selectedOption := some 1,
          isAnswerChecked := true, sessionResults := [], isSessionComplete := false }
      = some ({ questions := [sampleQ1], currentQuestionIndex := 0, selectedOption := some 1,
                isAnswerChecked := true, sessionResults := [], isSessionComplete := false },
          none) :=
  (handleCheckAnswer_duplicate_noop "s1"
    { questions := [sampleQ1], currentQuestionIndex := 0, selectedOption := some 1,
      isAnswerChecked := true, sessionResults := [], isSessionComplete := false }).1
    (Or.inr rfl)

/-- C4: on a real check, the appended `UserAnswerResult` stores the
selected index and the 1-based `correctAnswer` unchanged, and its
`isCorrect` field is true exactly when the 0-based selection equals
`correctAnswer - 1`; the attempted progress write carries the same
correctness bit. -/
theorem handleCheckAnswer_off_by_one (subjectId : String) (s : SessionState)
    (sel : Int) (q : MCQ)
    (hsel : s.selectedOption = some sel)
    (hchk : s.isAnswerChecked = false)
    (hq : s.questions.get? s.currentQuestionIndex = some q) :
    ∃ r : UserAnswerResult,
      handleCheckAnswer subjectId s =
        some ({ s with isAnswerChecked := true, sessionResults := s.sessionResults ++ [r] },
          some { questionId := q.id, isCorrect := r.isCorrect, chapterId := q.chapterId,
                 subjectId := subjectId, attemptCount := 1 }) ∧
      (r.isCorrect = true ↔ sel = q.correctAnswer - 1) ∧
      r.selectedOption = sel ∧
      r.correctAnswer = q.correctAnswer := by
  refine ⟨{ questionId := q.id, question := q.question, options := q.options,
            correctAnswer := q.correctAnswer, selectedOption := sel,
            isCorrect := sel == q.correctAnswer - 1, explanation := q.explanation },
    ?_, ?_, rfl, rfl⟩
  · unfold handleCheckAnswer
    rw [if_neg (by simp [hsel, hchk]), hsel, hq]
  · exact beq_iff_eq

/-- Witness for C4: checking option 1 against sampleQ1 (correct answer
stored as 2) is recorded correct. -/
theorem handleCheckAnswer_off_by_one_witness :
    ∃ r : UserAnswerResult,
      handleCheckAnswer "s1"
          { questions := [sampleQ1], currentQuestionIndex := 0, selectedOption := some 1,
            isAnswerChecked := false, sessionResults := [], isSessionComplete := false } =
        some ({ questions := [sampleQ1], currentQuestionIndex := 0, selectedOption := some 1,
                isAnswerChecked := true, sessionResults := [] ++ [r],
                isSessionComplete := false },
          some { questionId := sampleQ1.id, isCorrect := r.isCorrect,
                 chapterId := sampleQ1.chapterId, subjectId := "s1", attemptCount := 1 }) ∧
      (r.isCorrect = true ↔ (1 : Int) = sampleQ1.correctAnswer - 1) ∧
      r.selectedOption = 1 ∧
      r.correctAnswer = sampleQ1.correctAnswer :=
  handleCheckAnswer_off_by_one "s1"
    { questions := [sampleQ1], currentQuestionIndex := 0, selectedOption := some 1,
      isAnswerChecked := false, sessionResults := [], isSessionComplete := false }
    1 sampleQ1 rfl rfl rfl

/-- C5: with 14 correct results over 20 session questions the score
renders as "70.0", and with zero questions the rendered value is the
defined 0 (total function, nothing thrown). -/
theorem scoreDisplay_seventy_and_zero (s t : SessionState)
    (h20 : s.questions.length = 20)
    (h14 : totalCorrect s.sessionResults = 14)
    (ht : t.questions.length = 0) :
    scoreDisplay s = "70.0" ∧ scoreDisplay t = "0" := by
  constructor
  · unfold scoreDisplay
    rw [if_pos (by rw [h20]; norm_num), h20, h14]
    unfold toFixed1
    dsimp only
    rw [show ((14 : ℕ) : ℚ) / ((20 : ℕ) : ℚ) * 100 * 10 = ((700 : Int) : ℚ) by norm_num,
      round_intCast]
    rfl
  · unfold scoreDisplay
    rw [if_neg (by rw [ht]; norm_num)]

/-- Witness for C5 at concrete states. -/
theorem scoreDisplay_seventy_and_zero_witness :
    scoreDisplay
        { questions := List.replicate 20 sampleQ1, currentQuestionIndex := 19,
          selectedOption := none, isAnswerChecked := true,
          sessionResults := List.replicate 14
              { questionId := "q1", question := "sample one", options := ["a", "b", "c", "d"],
                correctAnswer := 2, selectedOption := 1, isCorrect := true,
                explanation := none } ++
            List.replicate 6
              { questionId := "q1", question := "sample one", options := ["a", "b", "c", "d"],
                correctAnswer := 2, selectedOption := 0, isCorrect := false,
                explanation := none },
          isSessionComplete := true }
      = "70.0" ∧
    scoreDisplay
        { questions := [], currentQuestionIndex := 0, selectedOption := none,
          isAnswerChecked := false, sessionResults := [], isSessionComplete := true }
      = "0" :=
  scoreDisplay_seventy_and_zero _ _ (by decide) (by decide) (by decide)

/-- C6 counterexample: resetting when the rebuilt list is empty (one
source question, bookmarked mode, empty bookmark set) leaves the
session NOT marked complete, refuting the final clause of the claim. -/
theorem handleResetSession_empty_not_complete_cex :
    (handleResetSession id [sampleQ1] ∅ FilterMode.bookmarked none 20 false).questions = [] ∧
    (handleResetSession id [sampleQ1] ∅ FilterMode.bookmarked none 20
        false).isSessionComplete = false := by
  decide

/-- C6 amended: `handleResetSession` re-enters the active state at
index 0 with empty result log, cleared selection and cleared checked
flag, rebuilding via `setupSession` from the cached question set with
the same last-applied filters, and leaves the completion flag false
unconditionally — even when the rebuilt question list is empty. -/
theorem handleResetSession_amended (shuffle : List MCQ → List MCQ) (allQuestions : List MCQ)
    (userBookmarks : Finset String) (tempFilterMode : FilterMode)
    (tempTopicId : Option String) (tempLimit : Nat) (isQuickRevision : Bool) :
    (handleResetSession shuffle allQuestions userBookmarks tempFilterMode tempTopicId
        tempLimit isQuickRevision).currentQuestionIndex = 0 ∧
    (handleResetSession shuffle allQuestions userBookmarks tempFilterMode tempTopicId
        tempLimit isQuickRevision).selectedOption = none ∧
    (handleResetSession shuffle allQuestions userBookmarks tempFilterMode tempTopicId
        tempLimit isQuickRevision).isAnswerChecked = false ∧
    (handleResetSession shuffle allQuestions userBookmarks tempFilterMode tempTopicId
        tempLimit isQuickRevision).sessionResults = [] ∧
    (handleResetSession shuffle allQuestions userBookmarks tempFilterMode tempTopicId
        tempLimit isQuickRevision).questions
      = (setupSession shuffle allQuestions userBookmarks tempFilterMode tempTopicId
          tempLimit isQuickRevision).questions ∧
    (handleResetSession shuffle allQuestions userBookmarks tempFilterMode tempTopicId
        tempLimit isQuickRevision).isSessionComplete = false :=
  ⟨rfl, rfl, rfl, rfl, rfl, rfl⟩

/-- C2: when the mode is bookmarked or the component is in the
quick-revision context, every question of the built session has its id
in the supplied bookmark set. -/
theorem setupSession_bookmarked_only (shuffle : List MCQ → List MCQ)
    (sourceQuestions : List MCQ) (bookmarks : Finset String) (mode : FilterMode)
    (topicId : Option String) (limit : Nat) (isQuickRevision : Bool)
    (hperm : ∀ l, (shuffle l).Perm l)
    (hmode : isQuickRevision = true ∨ mode = FilterMode.bookmarked) :
    ∀ q ∈ (setupSession shuffle sourceQuestions bookmarks mode topicId limit
        isQuickRevision).questions,
      q.id ∈ bookmarks := by
  intro q hq
  simp only [setupSession] at hq
  have hmem : q ∈ filteredQuestions sourceQuestions bookmarks mode topicId isQuickRevision :=
    (hperm _).subset (List.take_subset _ _ hq)
  have happ : bookmarkFilterApplies isQuickRevision mode = true := by
    rcases hmode with h | h
    · simp [bookmarkFilterApplies, h]
    · simp [bookmarkFilterApplies, h]
  unfold filteredQuestions at hmem
  rw [if_pos happ] at hmem
  exact of_decide_eq_true (List.mem_filter.mp hmem).2

/-- Witness for C2 with one bookmarked question in bookmarked mode,
instantiated at the concrete session member sampleQ1. -/
theorem setupSession_bookmarked_only_witness :
    sampleQ1.id ∈ ({"q1"} : Finset String) :=
  setupSession_bookmarked_only id [sampleQ1, sampleQ2] {"q1"} FilterMode.bookmarked none 20
    false (fun l => List.Perm.refl l) (Or.inr rfl) sampleQ1 (by decide)

/-- C7: with both remote operations succeeding, toggling a
non-bookmarked question (the caller passes the membership test of the
current set) adds its id to the local set and creates the backing
record; toggling again removes the id and deletes the record, and the
set after the two toggles equals the set before either. -/
theorem handleToggleBookmark_round_trip (chapter : Chapter) (s : Finset String)
    (questionId : String) (h : questionId ∉ s) :
    (handleToggleBookmark true chapter s questionId
        (decide (questionId ∈ s))).userBookmarks = insert questionId s ∧
    (handleToggleBookmark true chapter s questionId
        (decide (questionId ∈ s))).remoteOps
      = [BookmarkOp.createDoc questionId chapter.id chapter.subjectId] ∧
    (handleToggleBookmark true chapter (insert questionId s) questionId
        (decide (questionId ∈ insert questionId s))).userBookmarks = s ∧
    (handleToggleBookmark true chapter (insert questionId s) questionId
        (decide (questionId ∈ insert questionId s))).remoteOps
      = [BookmarkOp.deleteDoc questionId] := by
  have h1 : decide (questionId ∈ s) = false := decide_eq_false h
  have h2 : decide (questionId ∈ insert questionId s) = true :=
    decide_eq_true (Finset.mem_insert_self questionId s)
  refine ⟨?_, ?_, ?_, ?_⟩
  · rw [handleToggleBookmark, h1]; rfl
  · rw [handleToggleBookmark, h1]; rfl
  · rw [handleToggleBookmark, h2]
    exact Finset.erase_insert h
  · rw [handleToggleBookmark, h2]; rfl

/-- Witness for C7 on the empty bookmark set. -/
theorem handleToggleBookmark_round_trip_witness :
    (handleToggleBookmark true { id := "c1", subjectId := "s1", title := "ch" } ∅ "q1"
        (decide ("q1" ∈ (∅ : Finset String)))).userBookmarks = insert "q1" ∅ ∧
    (handleToggleBookmark true { id := "c1", subjectId := "s1", title := "ch" } ∅ "q1"
        (decide ("q1" ∈ (∅ : Finset String)))).remoteOps
      = [BookmarkOp.createDoc "q1" "c1" "s1"] ∧
    (handleToggleBookmark true { id := "c1", subjectId := "s1", title := "ch" }
        (insert "q1" ∅) "q1"
        (decide ("q1" ∈ insert "q1" (∅ : Finset String)))).userBookmarks = ∅ ∧
    (handleToggleBookmark true { id := "c1", subjectId := "s1", title := "ch" }
        (insert "q1" ∅) "q1"
        (decide ("q1" ∈ insert "q1" (∅ : Finset String)))).remoteOps
      = [BookmarkOp.deleteDoc "q1"] :=
  handleToggleBookmark_round_trip { id := "c1", subjectId := "s1", title := "ch" } ∅ "q1"
    (Finset.not_mem_empty "q1")

theorem chapterRef_mem_deleteChapterBatch (store : AdminStore) (cid x : String) :
    DocRef.chapterRef x ∈ deleteChapterBatch store cid ↔ x = cid := by
  simp [deleteChapterBatch]

theorem topicRef_mem_deleteChapterBatch (store : AdminStore) (cid : String) (t : TopicRec)
    (ht : t ∈ store.topics) (hnodup : (store.topics.map TopicRec.id).Nodup) :
    DocRef.topicRef t.id ∈ deleteChapterBatch store cid ↔ t.chapterId = cid := by
  unfold deleteChapterBatch
  constructor
  · intro h
    rcases List.mem_append.mp h with h1 | hF
    · rcases List.mem_append.mp h1 with h2 | hM
      · rcases List.mem_append.mp h2 with hC | hT
        · exact DocRef.noConfusion (List.mem_singleton.mp hC)
        · obtain ⟨t', ht', hid⟩ := List.mem_map.mp hT
          obtain ⟨ht'', hcid⟩ := List.mem_filter.mp ht'
          have heq : t' = t :=
            List.inj_on_of_nodup_map hnodup ht'' ht (DocRef.topicRef.inj hid)
          rw [← heq]
          exact eq_of_beq hcid
      · obtain ⟨m, _, heq⟩ := List.mem_map.mp hM
        exact DocRef.noConfusion heq
    · obtain ⟨f, _, heq⟩ := List.mem_map.mp hF
      exact DocRef.noConfusion heq
  · intro h
    refine List.mem_append.mpr (Or.inl (List.mem_append.mpr (Or.inl
      (List.mem_append.mpr (Or.inr ?_)))))
    exact List.mem_map.mpr ⟨t, List.mem_filter.mpr ⟨ht, beq_iff_eq.mpr h⟩, rfl⟩

theorem mcqRef_mem_deleteChapterBatch (store : AdminStore) (cid : String) (m : McqRec)
    (hm : m ∈ store.mcqs) (hnodup : (store.mcqs.map McqRec.id).Nodup) :
    DocRef.mcqRef m.id ∈ deleteChapterBatch store cid ↔ m.chapterId = cid := by
  unfold deleteChapterBatch
  constructor
  · intro h
    rcases List.mem_append.mp h with h1 | hF
    · rcases List.mem_append.mp h1 with h2 | hM
      · rcases List.mem_append.mp h2 with hC | hT
        · exact DocRef.noConfusion (List.mem_singleton.mp hC)
        · obtain ⟨t, _, heq⟩ := List.mem_map.mp hT
          exact DocRef.noConfusion heq
      · obtain ⟨m', hm', hid⟩ := List.mem_map.mp hM
        obtain ⟨hm'', hcid⟩ := List.mem_filter.mp hm'
        have heq : m' = m :=
          List.inj_on_of_nodup_map hnodup hm'' hm (DocRef.mcqRef.inj hid)
        rw [← heq]
        exact eq_of_beq hcid
    · obtain ⟨f, _, heq⟩ := List.mem_map.mp hF
      exact DocRef.noConfusion heq
  · intro h
    refine List.mem_append.mpr (Or.inl (List.mem_append.mpr (Or.inr ?_)))
    exact List.mem_map.mpr ⟨m, List.mem_filter.mpr ⟨hm, beq_iff_eq.mpr h⟩, rfl⟩

theorem formulaRef_mem_deleteChapterBatch (store : AdminStore) (cid : String)
    (f : FormulaRec) (hf : f ∈ store.formulas)
    (hnodup : (store.formulas.map FormulaRec.id).Nodup) :
    DocRef.formulaRef f.id ∈ deleteChapterBatch store cid ↔ f.chapterId = cid := by
  unfold deleteChapterBatch
  constructor
  · intro h
    rcases List.mem_append.mp h with h1 | hF
    · rcases List.mem_append.mp h1 with h2 | hM
      · rcases List.mem_append.mp h2 with hC | hT
        · exact DocRef.noConfusion (List.mem_singleton.mp hC)
        · obtain ⟨t, _, heq⟩ := List.mem_map.mp hT
          exact DocRef.noConfusion heq
      · obtain ⟨m, _, heq⟩ := List.mem_map.mp hM
        exact DocRef.noConfusion heq
    · obtain ⟨f', hf', hid⟩ := List.mem_map.mp hF
      obtain ⟨hf'', hcid⟩ := List.mem_filter.mp hf'
      have heq : f' = f :=
        List.inj_on_of_nodup_map hnodup hf'' hf (DocRef.formulaRef.inj hid)
      rw [← heq]
      exact eq_of_beq hcid
  · intro h
    refine List.mem_append.mpr (Or.inr ?_)
    exact List.mem_map.mpr ⟨f, List.mem_filter.mpr ⟨hf, beq_iff_eq.mpr h⟩, rfl⟩

/-- C9: the cascade delete is all-or-nothing.  On a successful commit
the chapter record and exactly the topic, MCQ and formula records
referencing it are removed in the single batch (assuming document ids
are unique within each collection, as the store guarantees); on a
failed or interrupted commit the store is exactly the prior state. -/
theorem handleDeleteChapter_atomic (store : AdminStore) (cid : String)
    (htop : (store.topics.map TopicRec.id).Nodup)
    (hmcq : (store.mcqs.map McqRec.id).Nodup)
    (hfor : (store.formulas.map FormulaRec.id).Nodup) :
    (handleDeleteChapter true store cid).chapters
        = store.chapters.filter (fun c => !(c.id == cid)) ∧
    (handleDeleteChapter true store cid).topics
        = store.topics.filter (fun t => !(t.chapterId == cid)) ∧
    (handleDeleteChapter true store cid).mcqs
        = store.mcqs.filter (fun m => !(m.chapterId == cid)) ∧
    (handleDeleteChapter true store cid).formulas
        = store.formulas.filter (fun f => !(f.chapterId == cid)) ∧
    handleDeleteChapter false store cid = store := by
  refine ⟨?_, ?_, ?_, ?_, rfl⟩
  · show store.chapters.filter _ = store.chapters.filter _
    refine List.filter_congr (fun c _ => ?_)
    have hmem := chapterRef_mem_deleteChapterBatch store cid c.id
    show (!decide (DocRef.chapterRef c.id ∈ deleteChapterBatch store cid)) = !(c.id == cid)
    by_cases h : c.id = cid
    · rw [decide_eq_true (hmem.mpr h), beq_iff_eq.mpr h]
    · rw [decide_eq_false (fun hc => h (hmem.mp hc)), beq_eq_false_iff_ne.mpr h]
  · show store.topics.filter _ = store.topics.filter _
    refine List.filter_congr (fun t ht => ?_)
    have hmem := topicRef_mem_deleteChapterBatch store cid t ht htop
    show (!decide (DocRef.topicRef t.id ∈ deleteChapterBatch store cid)) = !(t.chapterId == cid)
    by_cases h : t.chapterId = cid
    · rw [decide_eq_true (hmem.mpr h), beq_iff_eq.mpr h]
    · rw [decide_eq_false (fun hc => h (hmem.mp hc)), beq_eq_false_iff_ne.mpr h]
  · show store.mcqs.filter _ = store.mcqs.filter _
    refine List.filter_congr (fun m hm => ?_)
    have hmem := mcqRef_mem_deleteChapterBatch store cid m hm hmcq
    show (!decide (DocRef.mcqRef m.id ∈ deleteChapterBatch store cid)) = !(m.chapterId == cid)
    by_cases h : m.chapterId = cid
    · rw [decide_eq_true (hmem.mpr h), beq_iff_eq.mpr h]
    · rw [decide_eq_false (fun hc => h (hmem.mp hc)), beq_eq_false_iff_ne.mpr h]
  · show store.formulas.filter _ = store.formulas.filter _
    refine List.filter_congr (fun f hf => ?_)
    have hmem := formulaRef_mem_deleteChapterBatch store cid f hf hfor
    show (!decide (DocRef.formulaRef f.id ∈ deleteChapterBatch store cid))
        = !(f.chapterId == cid)
    by_cases h : f.chapterId = cid
    · rw [decide_eq_true (hmem.mpr h), beq_iff_eq.mpr h]
    · rw [decide_eq_false (fun hc => h (hmem.mp hc)), beq_eq_false_iff_ne.mpr h]

/-- Witness for C9 on a small concrete store with records both inside
and outside the deleted chapter. -/
theorem handleDeleteChapter_atomic_witness :
    (handleDeleteChapter true
          { chapters := [{ id := "c1" }, { id := "c2" }],
            topics := [{ id := "t1", chapterId := "c1" }, { id := "t2", chapterId := "c2" }],
            mcqs := [{ id := "m1", chapterId := "c1" }, { id := "m2", chapterId := "c2" }],
            formulas := [{ id := "f1", chapterId := "c1" }] }
          "c1").chapters
        = [{ id := "c1" }, { id := "c2" }].filter (fun c => !(c.id == "c1")) ∧
    (handleDeleteChapter true
          { chapters := [{ id := "c1" }, { id := "c2" }],
            topics := [{ id := "t1", chapterId := "c1" }, { id := "t2", chapterId := "c2" }],
            mcqs := [{ id := "m1", chapterId := "c1" }, { id := "m2", chapterId := "c2" }],
            formulas := [{ id := "f1", chapterId := "c1" }] }
          "c1").topics
        = [{ id := "t1", chapterId := "c1" },
           { id := "t2", chapterId := "c2" }].filter (fun t => !(t.chapterId == "c1")) ∧
    (handleDeleteChapter true
          { chapters := [{ id := "c1" }, { id := "c2" }],
            topics := [{ id := "t1", chapterId := "c1" }, { id := "t2", chapterId := "c2" }],
            mcqs := [{ id := "m1", chapterId := "c1" }, { id := "m2", chapterId := "c2" }],
            formulas := [{ id := "f1", chapterId := "c1" }] }
          "c1").mcqs
        = [{ id := "m1", chapterId := "c1" },
           { id := "m2", chapterId := "c2" }].filter (fun m => !(m.chapterId == "c1")) ∧
    (handleDeleteChapter true
          { chapters := [{ id := "c1" }, { id := "c2" }],
            topics := [{ id := "t1", chapterId := "c1" }, { id := "t2", chapterId := "c2" }],
            mcqs := [{ id := "m1", chapterId := "c1" }, { id := "m2", chapterId := "c2" }],
            formulas := [{ id := "f1", chapterId := "c1" }] }
          "c1").formulas
        = [{ id := "f1", chapterId := "c1" }].filter (fun f => !(f.chapterId == "c1")) ∧
    handleDeleteChapter false
        { chapters := [{ id := "c1" }, { id := "c2" }],
          topics := [{ id := "t1", chapterId := "c1" }, { id := "t2", chapterId := "c2" }],
          mcqs := [{ id := "m1", chapterId := "c1" }, { id := "m2", chapterId := "c2" }],
          formulas := [{ id := "f1", chapterId := "c1" }] }
        "c1"
      = { chapters := [{ id := "c1" }, { id := "c2" }],
          topics := [{ id := "t1", chapterId := "c1" }, { id := "t2", chapterId := "c2" }],
          mcqs := [{ id := "m1", chapterId := "c1" }, { id := "m2", chapterId := "c2" }],
          formulas := [{ id := "f1", chapterId := "c1" }] } :=
  handleDeleteChapter_atomic
    { chapters := [{ id := "c1" }, { id := "c2" }],
      topics := [{ id := "t1", chapterId := "c1" }, { id := "t2", chapterId := "c2" }],
      mcqs := [{ id := "m1", chapterId := "c1" }, { id := "m2", chapterId := "c2" }],
      formulas := [{ id := "f1", chapterId := "c1" }] }
    "c1" (by decide) (by decide) (by decide)

/-- C8: when the remote create or delete fails, the local bookmark set
is exactly what it was, a transient error banner is shown with an
auto-dismiss timeout, and exactly one remote attempt was made (no
automatic retry). -/
theorem handleToggleBookmark_failure_atomic (chapter : Chapter) (s : Finset String)
    (questionId : String) (isBookmarked : Bool) :
    (handleToggleBookmark false chapter s questionId isBookmarked).userBookmarks = s ∧
    (handleToggleBookmark false chapter s questionId isBookmarked).msg
      = some { type := MsgType.error, text := "Failed to update bookmark." } ∧
    (handleToggleBookmark false chapter s questionId isBookmarked).msgTimeoutScheduled
      = true ∧
    (handleToggleBookmark false chapter s questionId isBookmarked).remoteOps.length = 1 := by
  cases isBookmarked <;> exact ⟨rfl, rfl, rfl, rfl⟩

/-- C10: when no topic filter and no bookmark filter apply, the sort
inside `setupSession` runs directly on the array the caller cached as
`allQuestions`, so after building (or resetting) a session the cached
source list holds the shuffled order — in general not the list the
caller stored, as the concrete reversal instance shows. -/
theorem setupSession_permutes_source_in_place (shuffle : List MCQ → List MCQ)
    (sourceQuestions : List MCQ) (mode : FilterMode) (topicId : Option String)
    (isQuickRevision : Bool)
    (htopic : topicFilterApplies topicId = false)
    (hbm : bookmarkFilterApplies isQuickRevision mode = false) :
    sourceAfterSetupSession shuffle sourceQuestions mode topicId isQuickRevision
      = shuffle sourceQuestions ∧
    sourceAfterSetupSession List.reverse [sampleQ1, sampleQ2] FilterMode.all none false
      ≠ [sampleQ1, sampleQ2] := by
  constructor
  · unfold sourceAfterSetupSession
    rw [htopic, hbm]
    rfl
  · decide

/-- Witness for C10: building with mode all, no topic filter and no
quick revision leaves the cached source reversed when the shuffle is
the reversal. -/
theorem setupSession_permutes_source_in_place_witness :
    sourceAfterSetupSession List.reverse [sampleQ1, sampleQ2] FilterMode.all none false
      = List.reverse [sampleQ1, sampleQ2] ∧
    sourceAfterSetupSession List.reverse [sampleQ1, sampleQ2] FilterMode.all none false
      ≠ [sampleQ1, sampleQ2] :=
  setupSession_permutes_source_in_place List.reverse [sampleQ1, sampleQ2] FilterMode.all
    none false rfl rfl

end DDI
